import Mathlib

/-!
# Verification of the Smeta-MU page-classification engine

Shallow embedding of the page-classification core of `src/main.py`
(`PDFAnalyzer` and its helpers) together with proofs of the spec's claims.

Conventions used throughout the embedding:
* Python strings are Lean `String`s; per-character scanning works on `List Char`.
* Python regex `search`/`finditer`/`match` calls are translated into explicit
  character scanners that implement exactly the matches the corresponding
  pattern can produce (leftmost, greedy, non-overlapping), specialised to the
  concrete pattern from the source.
* Python `\s`, `\d` and `\w` are modelled over the character repertoire the
  program works with (ASCII plus the Cyrillic and Greek blocks used by the
  patterns).
* Python float arithmetic on small integer counts (ratios compared against
  0.5, 0.7, 2, 3, 50, 100) is modelled with exact rational comparisons,
  written with cleared denominators over `Nat`/`Int` so that they evaluate
  inside the kernel.
* Fallible stages are modelled with `Except Unit`; a caught exception is an
  `Except.error ()`.
-/

/-! ## Character classes (Python regex classes used by the source) -/

/-- Python whitespace (`\s`, `str.strip`) over the ASCII range. -/
def pyIsSpace (c : Char) : Bool :=
  c = ' ' || c = '\t' || c = '\n' || c = '\x0d' || c = '\x0b' || c = '\x0c'

/-- Python `\d` / `str.isdigit` restricted to ASCII decimal digits. -/
def isDigitPy (c : Char) : Bool :=
  '0' ≤ c && c ≤ '9'

/-- ASCII letter, the class `[a-zA-Z]`. -/
def isAsciiLetter (c : Char) : Bool :=
  ('a' ≤ c && c ≤ 'z') || ('A' ≤ c && c ≤ 'Z')

/-- ASCII letter or digit, the class `[a-zA-Z0-9]`. -/
def isAsciiAlnum (c : Char) : Bool :=
  isAsciiLetter c || isDigitPy c

/-- Cyrillic letter of the class `[А-Яа-яё]` under `re.IGNORECASE`:
upper range U+0410–U+042F, lower range U+0430–U+044F, plus ё/Ё. -/
def isCyrAll (c : Char) : Bool :=
  (0x410 ≤ c.toNat && c.toNat ≤ 0x44F) || c.toNat = 0x451 || c.toNat = 0x401

/-- Cyrillic letter of the class `[А-Яа-яё]` without `re.IGNORECASE`
(as in the footnote-definition pattern): Ё (U+0401) is not included. -/
def isCyrPlain (c : Char) : Bool :=
  (0x410 ≤ c.toNat && c.toNat ≤ 0x44F) || c.toNat = 0x451

/-- Greek letter of the class `[α-ωΑ-Ω]`. -/
def isGreek (c : Char) : Bool :=
  (0x3B1 ≤ c.toNat && c.toNat ≤ 0x3C9) || (0x391 ≤ c.toNat && c.toNat ≤ 0x3A9)

/-- Python `\w` (word character) over the repertoire relevant to the source:
ASCII alphanumerics, underscore, Cyrillic and Greek letters. -/
def pyIsWordChar (c : Char) : Bool :=
  isAsciiAlnum c || c = '_' || isCyrAll c || isGreek c

/-- The mathematical operator glyphs of `FORMULA_PATTERNS[0]`. -/
def mathGlyphs : List Char :=
  ['∑', '∫', '∏', '√', '±', '×', '÷', '≤', '≥', '≠', '∞', '∂', '∇']

/-- Left brace character (written via its code point). -/
def lbraceChar : Char := Char.ofNat 0x7b

/-- Right brace character (written via its code point). -/
def rbraceChar : Char := Char.ofNat 0x7d

/-! ## String helpers -/

/-- `str.strip()` on a character list: drop whitespace from both ends. -/
def pyStripList (cs : List Char) : List Char :=
  ((cs.dropWhile pyIsSpace).reverse.dropWhile pyIsSpace).reverse

/-- `str.strip()` on a `String`. -/
def pyStrip (s : String) : String :=
  String.mk (pyStripList s.toList)

/-- Collapse every whitespace run to a single space
(the `re.sub(r'\s+', ' ', ...)` step); `inSpace` records whether the
previous character belonged to a whitespace run. -/
def collapseGo (inSpace : Bool) : List Char → List Char
  | [] => []
  | c :: rest =>
      if pyIsSpace c then
        if inSpace then collapseGo true rest
        else ' ' :: collapseGo true rest
      else c :: collapseGo false rest

/-- `re.sub(r'\s+', ' ', text.strip())` from `_has_formulas`. -/
def cleanText (s : String) : String :=
  String.mk (collapseGo false (pyStripList s.toList))

/-- Python substring test `pat in hay` on character lists. -/
def listContainsSub (hay pat : List Char) : Bool :=
  match hay with
  | [] => pat.isEmpty
  | c :: t => pat.isPrefixOf (c :: t) || listContainsSub t pat

/-- Python substring test `pat in hay` on strings. -/
def strContainsSub (hay pat : String) : Bool :=
  listContainsSub hay.toList pat.toList

/-- `str.lower()` on one character, over ASCII and Cyrillic (the repertoire
of `tabular_words` and the cell texts the source lowercases). -/
def toLowerPyChar (c : Char) : Char :=
  if 0x41 ≤ c.toNat && c.toNat ≤ 0x5A then Char.ofNat (c.toNat + 32)
  else if 0x410 ≤ c.toNat && c.toNat ≤ 0x42F then Char.ofNat (c.toNat + 32)
  else if c.toNat = 0x401 then Char.ofNat 0x451
  else c

/-- `str.lower()` on a string. -/
def toLowerPy (s : String) : String :=
  String.mk (s.toList.map toLowerPyChar)

/-- Number of words of `str.split()` (maximal non-whitespace runs);
`inWord` records whether the previous character was part of a word. -/
def countWordsGo (inWord : Bool) : List Char → Nat
  | [] => 0
  | c :: rest =>
      if pyIsSpace c then countWordsGo false rest
      else (if inWord then 0 else 1) + countWordsGo true rest

/-- `len(s.split())` for a Python string. -/
def countWords (s : String) : Nat :=
  countWordsGo false s.toList

/-! ## Formula Text Detector (`FORMULA_PATTERNS` and `_has_formulas`) -/

/-- `FORMULA_PATTERNS[0]`: `[∑∫∏√±×÷≤≥≠∞∂∇]` — some mathematical glyph occurs. -/
def patGlyph (cs : List Char) : Bool :=
  cs.any (fun c => mathGlyphs.contains c)

/-- `FORMULA_PATTERNS[1]`: `[α-ωΑ-Ω]` — some Greek letter occurs. -/
def patGreek (cs : List Char) : Bool :=
  cs.any isGreek

/-- Character class `[a-zA-Z0-9+\-*/=\(\)\s]` of the inline-LaTeX pattern. -/
def isClass3 (c : Char) : Bool :=
  isAsciiAlnum c || c = '+' || c = '-' || c = '*' || c = '/' || c = '=' ||
    c = '(' || c = ')' || pyIsSpace c

/-- `FORMULA_PATTERNS[2]`: `\$[a-zA-Z0-9+\-*/=\(\)\s]{2,}\$`.  A match exists
iff some `$` is followed by a maximal class run of length ≥ 2 and then `$`
(the class excludes `$`, so the greedy run cannot backtrack onto one). -/
def patDollar : List Char → Bool
  | [] => false
  | c :: rest =>
      (c = '$' &&
        (let run := rest.takeWhile isClass3
         decide (2 ≤ run.length) && (rest.drop run.length).head? = some '$'))
      || patDollar rest

/-- The literal text `\begin{equation}` of `FORMULA_PATTERNS[3]`. -/
def beginEqChars : List Char :=
  ['\\', 'b', 'e', 'g', 'i', 'n', lbraceChar, 'e', 'q', 'u', 'a', 't', 'i',
   'o', 'n', rbraceChar]

/-- `FORMULA_PATTERNS[3]`: the literal `\begin{equation}` occurs. -/
def patBeginEq (cs : List Char) : Bool :=
  listContainsSub cs beginEqChars

/-- Character class `[a-zA-Z0-9,\s]` of the function patterns. -/
def isClass5 (c : Char) : Bool :=
  isAsciiAlnum c || c = ',' || pyIsSpace c

/-- Whether an optional previous character is an ASCII letter. -/
def prevIsAsciiLetter : Option Char → Bool
  | some c => isAsciiLetter c
  | none => false

/-- `FORMULA_PATTERNS[4]`: `[a-zA-Z]+\([a-zA-Z0-9,\s]+\)` — a match exists iff
some `(` directly preceded by an ASCII letter is followed by a maximal
class run of length ≥ 1 and then `)`. `prev` is the previous character. -/
def patFunc1Go (prev : Option Char) : List Char → Bool
  | [] => false
  | c :: rest =>
      (c = '(' && prevIsAsciiLetter prev &&
        (let run := rest.takeWhile isClass5
         decide (1 ≤ run.length) && (rest.drop run.length).head? = some ')'))
      || patFunc1Go (some c) rest

/-- `FORMULA_PATTERNS[4]` on a whole character list. -/
def patFunc1 (cs : List Char) : Bool :=
  patFunc1Go none cs

/-- `FORMULA_PATTERNS[5]`: `[a-zA-Z]\([a-zA-Z0-9,\s]*\)` — as `patFunc1Go`
but the argument run may be empty. -/
def patFunc2Go (prev : Option Char) : List Char → Bool
  | [] => false
  | c :: rest =>
      (c = '(' && prevIsAsciiLetter prev &&
        (let run := rest.takeWhile isClass5
         (rest.drop run.length).head? = some ')'))
      || patFunc2Go (some c) rest

/-- `FORMULA_PATTERNS[5]` on a whole character list. -/
def patFunc2 (cs : List Char) : Bool :=
  patFunc2Go none cs

/-- Whether an optional previous character is a Python word character
(used for the `\b` boundaries of the subscript pattern; `none` = start of
text, which is a boundary). -/
def prevIsWord : Option Char → Bool
  | some c => pyIsWordChar c
  | none => false

/-- `FORMULA_PATTERNS[6]`: `\b[a-zA-Z]{1,3}_[a-zA-Z0-9]{1,3}\b`.  A match
exists iff at a word boundary a maximal ASCII-letter run of length ≤ 3 is
followed by `_`, then a maximal ASCII-alphanumeric run of length 1–3, with a
word boundary after it. -/
def patSubGo (prev : Option Char) : List Char → Bool
  | [] => false
  | c :: rest =>
      (isAsciiLetter c && !prevIsWord prev &&
        (let lrun := rest.takeWhile isAsciiLetter
         decide (lrun.length + 1 ≤ 3) &&
         (let afterL := rest.drop lrun.length
          afterL.head? = some '_' &&
          (let arun := (afterL.drop 1).takeWhile isAsciiAlnum
           decide (1 ≤ arun.length) && decide (arun.length ≤ 3) &&
           (match ((afterL.drop 1).drop arun.length).head? with
            | none => true
            | some d => !pyIsWordChar d)))))
      || patSubGo (some c) rest

/-- `FORMULA_PATTERNS[6]` on a whole character list. -/
def patSub (cs : List Char) : Bool :=
  patSubGo none cs

/-- `FORMULA_PATTERNS[7]`: `\^[0-9]+|\^{[^}]+}` — a caret followed by a digit,
or `^{`, at least one non-`}` character, and `}`. -/
def patPow : List Char → Bool
  | [] => false
  | c :: rest =>
      (c = '^' &&
        ((match rest.head? with
          | some d => isDigitPy d
          | none => false) ||
         (rest.head? = some lbraceChar &&
           (let inner := (rest.drop 1).takeWhile (fun d => !(d = rbraceChar))
            decide (1 ≤ inner.length) &&
              ((rest.drop 1).drop inner.length).head? = some rbraceChar))))
      || patPow rest

/-- `FORMULA_PATTERNS[8]` and `[9]`: `рН\s*=\s*[0-9]+(...)?(...)?` (and the
Latin `pH` variant).  The optional tail groups can always match the empty
string, so a match exists iff the two label characters are followed by
optional whitespace, `=`, optional whitespace and a digit. -/
def patPhGo (c1 c2 : Char) : List Char → Bool
  | [] => false
  | c :: rest =>
      (c = c1 && rest.head? = some c2 &&
        (let r1 := (rest.drop 1).dropWhile pyIsSpace
         r1.head? = some '=' &&
         (let r2 := (r1.drop 1).dropWhile pyIsSpace
          match r2.head? with
          | some d => isDigitPy d
          | none => false)))
      || patPhGo c1 c2 rest

/-- `FORMULA_PATTERNS[8]`: the Cyrillic `рН=...` pattern. -/
def patPhRu (cs : List Char) : Bool :=
  patPhGo 'р' 'Н' cs

/-- `FORMULA_PATTERNS[9]`: the Latin `pH=...` pattern. -/
def patPhEn (cs : List Char) : Bool :=
  patPhGo 'p' 'H' cs

/-- The multi-line function pattern of `_has_formulas`:
`\(\s*[a-zA-Z0-9,\s]*\s*\)\s*\n\s*[a-zA-Z]\s+[a-zA-Z0-9,\s]*`.
Since `\s ⊆ [a-zA-Z0-9,\s]`, the part inside the parentheses is one maximal
class run; after `)` the whitespace run must contain a newline, the first
non-whitespace character after it must be an ASCII letter, and that letter
must be followed by a whitespace character. -/
def patMultilineGo : List Char → Bool
  | [] => false
  | c :: rest =>
      (c = '(' &&
        (let run := rest.takeWhile isClass5
         (rest.drop run.length).head? = some ')' &&
         (let after := (rest.drop run.length).drop 1
          let w := after.takeWhile pyIsSpace
          w.contains '\n' &&
          (let afterW := after.drop w.length
           (match afterW.head? with
            | some d => isAsciiLetter d
            | none => false) &&
           (match (afterW.drop 1).head? with
            | some d => pyIsSpace d
            | none => false)))))
      || patMultilineGo rest

/-- Whether any of the ten `FORMULA_PATTERNS` matches the character list. -/
def formulaPatternsHit (cs : List Char) : Bool :=
  patGlyph cs || patGreek cs || patDollar cs || patBeginEq cs ||
    patFunc1 cs || patFunc2 cs || patSub cs || patPow cs ||
    patPhRu cs || patPhEn cs

/-- `PDFAnalyzer._has_formulas`: every pattern is tried on the raw text and on
the whitespace-normalized copy, then the dedicated multi-line function
pattern is tried on the raw text. -/
def hasFormulas (s : String) : Bool :=
  formulaPatternsHit s.toList || formulaPatternsHit (cleanText s).toList ||
    patMultilineGo s.toList

/-! ## Special-Script Detector (`SPECIAL_CHARS_PATTERN`, `_has_special_chars`) -/

/-- One character of `[一-鿿؀-ۿ]` (CJK or Arabic). -/
def isSpecialChar (c : Char) : Bool :=
  (0x4E00 ≤ c.toNat && c.toNat ≤ 0x9FFF) || (0x600 ≤ c.toNat && c.toNat ≤ 0x6FF)

/-- `PDFAnalyzer._has_special_chars`. -/
def hasSpecialChars (s : String) : Bool :=
  s.toList.any isSpecialChar

/-! ## Footnote Pair Matcher (`_has_footnotes`) -/

/-- Whether an optional previous character belongs to `[А-Яа-яё]` with
`re.IGNORECASE`. -/
def prevIsCyrAll : Option Char → Bool
  | some c => isCyrAll c
  | none => false

/-- Sub-pattern 1.1 of `_has_footnotes`: `[А-Яа-яё]+(\d+)` with IGNORECASE.
`finditer` captures exactly the maximal digit runs that directly follow a
Cyrillic letter; `prev` is the previous character. -/
def refScan1Go (prev : Option Char) : List Char → List String
  | [] => []
  | c :: rest =>
      if isDigitPy c && prevIsCyrAll prev then
        String.mk (c :: rest.takeWhile isDigitPy) :: refScan1Go (some c) rest
      else refScan1Go (some c) rest

/-- One of the punctuation characters `[,\.;:]` of sub-pattern 1.2. -/
def isPunct4 (c : Char) : Bool :=
  c = ',' || c = '.' || c = ';' || c = ':'

/-- The backwards context test of sub-pattern 1.2: skipping whitespace
backwards from the digit run, the next two characters must be a punctuation
mark preceded by a Cyrillic letter (`[а-яё]` with IGNORECASE covers both
cases).  `back` is the reversed prefix before the current position. -/
def punct4Back (back : List Char) : Bool :=
  match back.dropWhile pyIsSpace with
  | p :: q :: _ => isPunct4 p && isCyrAll q
  | _ => false

/-- Sub-pattern 1.2 of `_has_footnotes`: `[а-яё][,\.;:]\s*(\d+)` with
IGNORECASE.  `finditer` captures exactly the maximal digit runs preceded
(backwards over whitespace) by a punctuation mark and a Cyrillic letter. -/
def refScan2Go (back : List Char) : List Char → List String
  | [] => []
  | c :: rest =>
      if isDigitPy c && punct4Back back then
        String.mk (c :: rest.takeWhile isDigitPy) :: refScan2Go (c :: back) rest
      else refScan2Go (c :: back) rest

/-- Whether a string starts with `18`, `19` or `20` (the calendar-year
prefixes tested by `_has_footnotes`). -/
def yearLikeStart (s : String) : Bool :=
  List.isPrefixOf ['1', '8'] s.toList || List.isPrefixOf ['1', '9'] s.toList ||
    List.isPrefixOf ['2', '0'] s.toList

/-- The per-match filter applied to a captured footnote number:
`len(num) <= 2 and not (len(num) == 4 and num.startswith(('18','19','20')))`. -/
def refFilter (s : String) : Bool :=
  decide (s.length ≤ 2) && !(s.length = 4 && yearLikeStart s)

/-- The set (as a list) of in-body footnote reference numbers collected by
`_has_footnotes` from both sub-patterns. -/
def refNums (text : String) : List String :=
  (refScan1Go none text.toList ++ refScan2Go [] text.toList).filter refFilter

/-- Python `text.split('\n')`: split on every newline, keeping empty pieces.
`cur` accumulates the current piece in reverse. -/
def splitNlGo (cur : List Char) : List Char → List String
  | [] => [String.mk cur.reverse]
  | c :: rest =>
      if c = '\n' then String.mk cur.reverse :: splitNlGo [] rest
      else splitNlGo (c :: cur) rest

/-- Python `text.split('\n')` on a `String`. -/
def splitNl (s : String) : List String :=
  splitNlGo [] s.toList

/-- The footnote-definition pattern `^(\d+)\s+[А-Яа-яё]` applied with
`re.match` to one stripped line: the leading maximal digit run is captured
when it is followed by at least one whitespace character and then a Cyrillic
letter. -/
def defLineNum (line : String) : Option String :=
  let l := pyStripList line.toList
  if l.isEmpty then none
  else
    let d := l.takeWhile isDigitPy
    if d.isEmpty then none
    else
      match l.drop d.length with
      | [] => none
      | c :: r2 =>
          if pyIsSpace c then
            match (r2.dropWhile pyIsSpace).head? with
            | some q => if isCyrPlain q then some (String.mk d) else none
            | none => none
          else none

/-- The set (as a list) of footnote-definition numbers: the text is split on
newlines and each nonempty stripped line is matched against the definition
pattern. -/
def defNums (text : String) : List String :=
  (splitNl text).filterMap defLineNum

/-- `PDFAnalyzer._has_footnotes`: the page has footnotes iff some number
appears both as an in-body reference and as a line-initial definition. -/
def hasFootnotes (text : String) : Bool :=
  let refs := refNums text
  let defins := defNums text
  !((refs.filter (fun n => defins.contains n)).isEmpty)

/-! ### Spec-side footnote predicate (for the refinement comparison of the
footnote claim) -/

/-- Whether an optional previous character is a non-digit word character
("a word-character run" per the spec's words ends in such a character
directly before the digit run). -/
def prevIsWordNonDigit : Option Char → Bool
  | some c => pyIsWordChar c && !isDigitPy c
  | none => false

/-- The backwards context test of the spec's punctuation variant: skipping
whitespace backwards, a punctuation mark preceded by a word character. -/
def specPunctBack (back : List Char) : Bool :=
  match back.dropWhile pyIsSpace with
  | p :: q :: _ => isPunct4 p && pyIsWordChar q
  | _ => false

/-- Modelled from the spec's words for the Footnote Pair Matcher contract:
in-body reference markers are maximal digit runs of length 1–2 preceded
either directly by a word-character run, or by a word-character run and a
punctuation mark (spec: "a word-character run immediately followed by 1–2
digits, or a word-character run followed by punctuation and then 1–2
digits").  `back` is the reversed prefix before the current position. -/
def specRefScanGo (back : List Char) : List Char → List String
  | [] => []
  | c :: rest =>
      if isDigitPy c && !(match back.head? with
          | some p => isDigitPy p
          | none => false) &&
          (prevIsWordNonDigit back.head? || specPunctBack back) then
        String.mk (c :: rest.takeWhile isDigitPy) :: specRefScanGo (c :: back) rest
      else specRefScanGo (c :: back) rest

/-- Modelled from the spec: the in-body reference markers, filtered to 1–2
digit numbers. -/
def specRefNums (text : String) : List String :=
  (specRefScanGo [] text.toList).filter (fun s => decide (s.length ≤ 2))

/-- Modelled from the spec: "a line beginning with 1–2 digits followed by a
letter" — the stripped line starts with a 1–2 digit run, then whitespace,
then a letter (Latin or Cyrillic). -/
def specDefLineNum (line : String) : Option String :=
  let l := pyStripList line.toList
  let d := l.takeWhile isDigitPy
  if d.isEmpty || decide (2 < d.length) then none
  else
    match l.drop d.length with
    | [] => none
    | c :: r2 =>
        if pyIsSpace c then
          match (r2.dropWhile pyIsSpace).head? with
          | some q => if isAsciiLetter q || isCyrAll q then some (String.mk d) else none
          | none => none
        else none

/-- Modelled from the spec: the line-initial footnote definitions. -/
def specDefNums (text : String) : List String :=
  (splitNl text).filterMap specDefLineNum

/-- Modelled from the spec: the claim's characterisation of the footnote
detector — some number occurs both as an in-body marker ("word-character
run" wording) and as a line-initial definition. -/
def specHasFootnotes (text : String) : Bool :=
  !(((specRefNums text).filter (fun n => (specDefNums text).contains n)).isEmpty)

/-! ## Table Validity Classifier (`_is_valid_table`, `_has_valid_tables`) -/

/-- One extracted table cell: `None` or a string (pdfplumber cells). -/
abbrev Cell := Option String

/-- One extracted table grid: a list of rows of cells. -/
abbrev Grid := List (List Cell)

/-- Python truthiness of a cell: not `None` and not the empty string. -/
def cellTruthy : Cell → Bool
  | none => false
  | some s => !s.isEmpty

/-- The string content of a cell (`str(cell)` for truthy cells). -/
def cellStr : Cell → String
  | none => ""
  | some s => s

/-- The source's `cell and cell.strip()` test: the cell is truthy and its
stripped content is nonempty. -/
def cellFilled (c : Cell) : Bool :=
  cellTruthy c && !(pyStrip (cellStr c)).isEmpty

/-- `rows = len(table)`. -/
def gridRows (g : Grid) : Nat := g.length

/-- `cols = len(table[0]) if table[0] else 0`. -/
def gridCols (g : Grid) : Nat := (g.headD []).length

/-- Total number of cells over all rows. -/
def totalCells (g : Grid) : Nat := (g.map List.length).sum

/-- Number of filled cells (`cell and cell.strip()`). -/
def nonEmptyCells (g : Grid) : Nat :=
  (g.map (fun r => r.countP cellFilled)).sum

/-- Append a value to an accumulator list unless already present
(insertion-ordered model of the Python `set`). -/
def insertUnique (acc : List String) (s : String) : List String :=
  if acc.contains s then acc else acc ++ [s]

/-- The set `unique_values` of stripped contents of filled cells. -/
def uniqueVals (g : Grid) : List String :=
  g.foldl
    (fun acc row =>
      row.foldl
        (fun a c => if cellFilled c then insertUnique a (pyStrip (cellStr c)) else a)
        acc)
    []

/-- Criterion 1: fewer than 2 rows or fewer than 2 columns. -/
def crit1 (g : Grid) : Bool :=
  decide (gridRows g < 2) || decide (gridCols g < 2)

/-- Criterion 2: the first two cells of the first row are both truthy and
equal, or one is a substring of the other. -/
def crit2 (g : Grid) : Bool :=
  match g with
  | (c0 :: c1 :: _) :: _ =>
      cellTruthy c0 && cellTruthy c1 &&
        (cellStr c0 = cellStr c1 ||
          strContainsSub (cellStr c1) (cellStr c0) ||
          strContainsSub (cellStr c0) (cellStr c1))
  | _ => false

/-- Criterion 3: fewer than 50% of the cells are filled
(`non_empty_cells / total_cells < 0.5`; over exact rationals this is
`2 * non_empty < total`). -/
def crit3 (g : Grid) : Bool :=
  decide (0 < totalCells g) && decide (2 * nonEmptyCells g < totalCells g)

/-- Whether column `j` (of the first `cols` columns) contains no filled cell. -/
def colEmpty (g : Grid) (j : Nat) : Bool :=
  !(g.any (fun row => cellFilled ((row.get? j).getD none)))

/-- `empty_columns`: number of columns that are entirely empty. -/
def emptyColumns (g : Grid) : Nat :=
  (List.range (gridCols g)).countP (fun j => colEmpty g j)

/-- Criterion 4: at least half of the columns are entirely empty
(`empty_columns >= cols / 2`; over exact rationals this is
`cols ≤ 2 * empty_columns`). -/
def crit4 (g : Grid) : Bool :=
  decide (gridCols g ≤ 2 * emptyColumns g)

/-- `numeric_cells`: truthy cells containing at least one digit. -/
def numericCells (g : Grid) : Nat :=
  (g.map (fun r =>
    r.countP (fun c => cellTruthy c && (cellStr c).toList.any isDigitPy))).sum

/-- The truthy cells of the grid, in row order (`str(cell) ... if cell`). -/
def truthyStrings (g : Grid) : List String :=
  g.foldl (fun acc row => acc ++ (row.filter cellTruthy).map cellStr) []

/-- `all_text`: the truthy cells joined with single spaces. -/
def allText (g : Grid) : String :=
  String.intercalate " " (truthyStrings g)

/-- The `tabular_words` vocabulary list of `_is_valid_table`. -/
def tabularWords : List String :=
  ["№", "номер", "количество", "сумма", "итого", "всего",
   "тип", "вид", "название", "наименование", "характеристика",
   "описание", "значение", "параметр", "критерий", "фактор",
   "аспект", "влияние", "воздействие", "категория", "группа",
   "показатель", "индикатор", "метод", "способ", "форма"]

/-- Whether some tabular-vocabulary word occurs in the lowercased cell text. -/
def hasTabularWord (g : Grid) : Bool :=
  tabularWords.any (fun w => strContainsSub (toLowerPy (allText g)) w)

/-- `table_indicators`: vocabulary hit, ≥ 3 numeric cells, and a
unique-to-rows ratio at most 0.7 (`len(unique) <= rows * 0.7`; over exact
rationals this is `10 * len(unique) ≤ 7 * rows`). -/
def tableIndicators (g : Grid) : Nat :=
  (if hasTabularWord g then 1 else 0) +
  (if 3 ≤ numericCells g then 1 else 0) +
  (if 10 * (uniqueVals g).length ≤ 7 * gridRows g then 1 else 0)

/-- `len(combined.split())` where `combined = " ".join(unique_values)`:
the stripped values contain no leading or trailing whitespace, so the word
count of the join is the sum of the values' word counts. -/
def combinedWordCount (g : Grid) : Nat :=
  ((uniqueVals g).map countWords).sum

/-- First text indicator: all filled cells unique, more than 5 of them, and
more than 3 words per cell on average (`words / len(unique) > 3`; the guard
makes `len(unique) > 0`, so over exact rationals this is
`3 * len(unique) < words`). -/
def textInd1 (g : Grid) : Bool :=
  decide ((uniqueVals g).length = nonEmptyCells g) &&
  decide (5 < nonEmptyCells g) &&
  decide (3 * (uniqueVals g).length < combinedWordCount g)

/-- Sum of `len(str(cell))` over truthy cells. -/
def sumLenTruthy (g : Grid) : Nat :=
  (g.map (fun r => ((r.filter cellTruthy).map (fun c => (cellStr c).length)).sum)).sum

/-- Second text indicator: an empty column exists and the average truthy-cell
length exceeds 50 characters (`sum_len / non_empty > 50`; the source divides
the truthy-cell length sum by the count of *filled* cells; over exact
rationals, with the `non_empty > 0` guard, this is
`50 * non_empty < sum_len`). -/
def textInd2 (g : Grid) : Bool :=
  decide (0 < emptyColumns g) &&
  decide (0 < nonEmptyCells g) &&
  decide (50 * nonEmptyCells g < sumLenTruthy g)

/-- `text_indicators`. -/
def textIndicators (g : Grid) : Nat :=
  (if textInd1 g then 1 else 0) + (if textInd2 g then 1 else 0)

/-- `filled_cells_per_row`. -/
def filledPerRow (g : Grid) : List Nat :=
  g.map (fun r => r.countP cellFilled)

/-- Sum of the row fill counts. -/
def fillSum (g : Grid) : Nat := (filledPerRow g).sum

/-- Criterion 8: the fill counts are excessively uneven — the mean fill is
positive (`avg = S / n > 0`, i.e. `0 < S` since the list is nonempty) and
the variance exceeds twice the mean: over exact rationals
`(Σ (x - S/n)² / n) / (S/n) > 2` clears to `2·S·n² < Σ (n·x - S)²`. -/
def crit8 (g : Grid) : Bool :=
  !g.isEmpty &&
    (let n : Int := (gridRows g : Int)
     let s : Int := (fillSum g : Int)
     decide (0 < s) &&
       decide (2 * s * n ^ 2 <
         ((filledPerRow g).map (fun x => (n * (x : Int) - s) ^ 2)).sum))

/-- The disjunction of the rejection criteria of `_is_valid_table`
(criteria 1–4 and 8; all are pure, so the textual order of the source's
early returns does not matter for which grids get rejected). -/
def rejected (g : Grid) : Bool :=
  crit1 g || crit2 g || crit3 g || crit4 g || crit8 g

/-- The term/description pairs of decision rule 4: rows with at least two
cells whose first two cells are both truthy, mapped to the cell lengths. -/
def rule4Pairs (g : Grid) : List (Nat × Nat) :=
  g.foldl
    (fun acc row =>
      match row with
      | c0 :: c1 :: _ =>
          if cellTruthy c0 && cellTruthy c1 then
            acc ++ [((cellStr c0).length, (cellStr c1).length)]
          else acc
      | _ => acc)
    []

/-- Decision rule 4 of `_is_valid_table` ("descriptive tables"): at least one
table indicator, no empty columns, at least 2 rows, exactly 2 columns, at
least one row pairing two truthy cells, the second column's average length
more than double the first's, and the first column's average under 100. -/
def rule4 (g : Grid) : Bool :=
  decide (1 ≤ tableIndicators g) && decide (emptyColumns g = 0) &&
  decide (2 ≤ gridRows g) && decide (gridCols g = 2) &&
  (let ps := rule4Pairs g
   !ps.isEmpty &&
   (let sumFirst := (ps.map Prod.fst).sum
    let sumSecond := (ps.map Prod.snd).sum
    decide (sumFirst * 2 < sumSecond) && decide (sumFirst < 100 * ps.length)))

/-- `PDFAnalyzer._is_valid_table`: the early-return structure of the source,
rejection criteria first, then the ordered decision rules. -/
def isValidTable (g : Grid) : Bool :=
  if g.isEmpty then false
  else if crit1 g then false
  else if crit2 g then false
  else if crit3 g then false
  else if crit4 g then false
  else if crit8 g then false
  else if 2 ≤ tableIndicators g ∧ textIndicators g = 0 then true
  else if tableIndicators g = 0 ∧ 0 < textIndicators g then false
  else if 0 < numericCells g ∧ emptyColumns g = 0 then true
  else if rule4 g then true
  else false

/-- `PDFAnalyzer._has_valid_tables`: a page contains a table iff some
extracted grid is valid (an extraction failure is caught and yields `false`,
which behaves like the empty grid list). -/
def hasValidTables (grids : List Grid) : Bool :=
  grids.any isValidTable

/-! ## Formula Image Detector (`_image_has_formulas`) -/

/-- One region returned by the external recognizer for one image:
a dict tagged `formula`, a dict carrying recognized `text`, or anything
else (non-dict results, dicts with neither key). -/
inductive RecRegion where
  | formula : RecRegion
  | withText : String → RecRegion
  | other : RecRegion
deriving DecidableEq

/-- Outcome of processing one embedded image: the outer `Except` is the
extract/decode step (its failure is caught by the outer handler), the inner
`Except` is the recognizer call (its failure is caught by the inner
handler), and the payload is the list of recognized regions. -/
abbrev ImgOutcome := Except Unit (Except Unit (List RecRegion))

/-- Whether one recognized region triggers the detector: an explicit
`formula` region, or recognized text satisfying the Formula Text Detector. -/
def regionMatch : RecRegion → Bool
  | RecRegion.formula => true
  | RecRegion.withText t => hasFormulas t
  | RecRegion.other => false

/-- Whether one image's outcome triggers the detector (a failed decode or a
failed recognizer call never does). -/
def imageMatch : ImgOutcome → Bool
  | Except.error _ => false
  | Except.ok (Except.error _) => false
  | Except.ok (Except.ok regions) => regions.any regionMatch

/-- The image loop of `_image_has_formulas`: failures `continue` to the next
image, a match returns `true` immediately, and `false` is returned after
the last image. -/
def scanImages : List ImgOutcome → Bool
  | [] => false
  | img :: rest =>
      match img with
      | Except.error _ => scanImages rest
      | Except.ok (Except.error _) => scanImages rest
      | Except.ok (Except.ok regions) =>
          if regions.any regionMatch then true else scanImages rest

/-- `PDFAnalyzer._image_has_formulas`: `false` when the recognizer model is
unavailable (`self.p2t is None`), otherwise the image loop (an empty image
list also yields `false`). -/
def imageHasFormulas (p2tAvailable : Bool) (imgs : List ImgOutcome) : Bool :=
  if p2tAvailable then scanImages imgs else false

/-! ## Page Classification Pipeline (`_analyze_single_page`, `analyze`) -/

deriving instance DecidableEq for Except

/-- The per-page stage outcomes seen by `_analyze_single_page`.  `extractStage`
models the page/text extraction at the top of the outer `try`; each detector
stage is an `Except Unit Bool` (a caught exception or a boolean verdict);
the table stage is absent (`none`) when pdfplumber failed to open the
document (`if pdf:`). -/
structure PageStages where
  extractStage : Except Unit Unit
  textStage : Except Unit Bool
  imageFormulaStage : Except Unit Bool
  imagesPresentStage : Except Unit Bool
  tableStage : Option (Except Unit Bool)
  specialStage : Except Unit Bool
  footnoteStage : Except Unit Bool
deriving DecidableEq

/-- A stage wrapped in `try/except` produces a hit only when it returns
`True`; a caught exception is treated as no match. -/
def stageHit : Except Unit Bool → Bool
  | Except.ok b => b
  | Except.error _ => false

/-- The table stage: skipped entirely (no match) when pdfplumber is
unavailable. -/
def tableHit : Option (Except Unit Bool) → Bool
  | none => false
  | some e => stageHit e

/-- `PDFAnalyzer._analyze_single_page`: the hierarchical detector cascade with
per-stage exception recovery.  If the initial extraction raises, the outer
handler catches it and the defaults `(1, "Простой текст")` are returned. -/
def analyzeSinglePage (s : PageStages) : Nat × String :=
  match s.extractStage with
  | Except.error _ => (1, "Простой текст")
  | Except.ok _ =>
      if stageHit s.textStage then (4, "Формула (текст)")
      else if stageHit s.imageFormulaStage then (4, "Формула (изображение)")
      else if stageHit s.imagesPresentStage then (3, "Изображение")
      else if tableHit s.tableStage then (3, "Таблица")
      else if stageHit s.specialStage then (2, "Иероглифы/араб. вязь")
      else if stageHit s.footnoteStage then (2, "Текст со сносками")
      else (1, "Простой текст")

/-- The table stage as an `Except`: an absent pdfplumber handle behaves like
a stage that found nothing. -/
def tableExc : Option (Except Unit Bool) → Except Unit Bool
  | none => Except.ok false
  | some e => e

/-- The detector stages of a page in priority order, each paired with the
tier and justification it returns on success. -/
def stageList (s : PageStages) : List (Except Unit Bool × Nat × String) :=
  [(s.textStage, 4, "Формула (текст)"),
   (s.imageFormulaStage, 4, "Формула (изображение)"),
   (s.imagesPresentStage, 3, "Изображение"),
   (tableExc s.tableStage, 3, "Таблица"),
   (s.specialStage, 2, "Иероглифы/араб. вязь"),
   (s.footnoteStage, 2, "Текст со сносками")]

/-- The concrete inputs of one page as handed over by the extraction layer:
page text, per-image recognizer outcomes, recognizer availability, and the
extracted table grids (`none` when pdfplumber is unavailable). -/
structure PageInput where
  text : String
  images : List ImgOutcome
  p2tAvailable : Bool
  tables : Option (List Grid)

/-- The stage outcomes produced by running the concrete detectors of the
source on a page's inputs (no stage raises in this case). -/
def stagesOfInput (p : PageInput) : PageStages :=
  { extractStage := Except.ok ()
  , textStage := Except.ok (hasFormulas p.text)
  , imageFormulaStage := Except.ok (imageHasFormulas p.p2tAvailable p.images)
  , imagesPresentStage := Except.ok (!p.images.isEmpty)
  , tableStage := p.tables.map (fun gs => Except.ok (hasValidTables gs))
  , specialStage := Except.ok (hasSpecialChars p.text)
  , footnoteStage := Except.ok (hasFootnotes p.text) }

/-! ## Pricing & Aggregation (`PRICING`, `analyze`, `batch_process_directory`) -/

/-- The `PRICING` table, as an association list from tier to rate. -/
def pricingTable : List (Nat × Nat) :=
  [(4, 34), (3, 25), (2, 21), (1, 9)]

/-- The rate for a tier (`PRICING[weight]`; the pipeline only ever looks up
tiers 1–4, for which the lookup is defined). -/
def priceOf (w : Nat) : Nat :=
  (pricingTable.lookup w).getD 0

/-- One row of `analysis_results`: page number (1-based), weight tier,
per-page cost, and justification. -/
structure Row where
  page : Nat
  weight : Nat
  cost : Nat
  reason : String
deriving DecidableEq

/-- The row appended for the page with 0-based index `i`. -/
def mkRow (i : Nat) (s : PageStages) : Row :=
  { page := i + 1
  , weight := (analyzeSinglePage s).1
  , cost := priceOf (analyzeSinglePage s).1
  , reason := (analyzeSinglePage s).2 }

/-- The page loop of `PDFAnalyzer.analyze`, starting at 0-based index `k`.
`_analyze_single_page` is total on the modelled stage outcomes (every stage
failure is absorbed inside it), so the loop's per-page `except` branch
(which would append a tier-1 row with an error reason) is unreachable for
the modelled behaviours and appears in no run of the embedding. -/
def analyzeDocFrom (k : Nat) : List PageStages → List Row
  | [] => []
  | s :: rest => mkRow k s :: analyzeDocFrom (k + 1) rest

/-- `PDFAnalyzer.analyze`: one classification row per page, in page order. -/
def analyzeDoc (pages : List PageStages) : List Row :=
  analyzeDocFrom 0 pages

/-- A document's total cost (`df["Стоимость (руб.)"].sum()`). -/
def docTotal (rows : List Row) : Nat :=
  (rows.map Row.cost).sum

/-- A batch's grand total (`total_cost += file_cost` over the documents of
`batch_process_directory`). -/
def batchTotal (docs : List (List Row)) : Nat :=
  (docs.map docTotal).sum

/-! ## Concrete example inputs used by witnesses and counterexamples -/

/-- A page on which every detector stage raises (and extraction succeeds). -/
def allErrPage : PageStages :=
  { extractStage := Except.ok ()
  , textStage := Except.error ()
  , imageFormulaStage := Except.error ()
  , imagesPresentStage := Except.error ()
  , tableStage := some (Except.error ())
  , specialStage := Except.error ()
  , footnoteStage := Except.error () }

/-- An ordinary plain-text page: every detector ran and found nothing. -/
def plainPage : PageStages :=
  { extractStage := Except.ok ()
  , textStage := Except.ok false
  , imageFormulaStage := Except.ok false
  , imagesPresentStage := Except.ok false
  , tableStage := some (Except.ok false)
  , specialStage := Except.ok false
  , footnoteStage := Except.ok false }

/-- A classical numeric table grid (a vocabulary word and numeric cells). -/
def numericGrid : Grid :=
  [[some "№", some "Сумма"], [some "1", some "100"]]

/-- A 2×2 grid in which every cell is absent. -/
def emptyCellGrid : Grid :=
  [[none, none], [none, none]]

/-- A grid whose first row repeats the string `Note` in its first two cells. -/
def noteGrid : Grid :=
  [[some "Note", some "Note"], [some "a", some "b"]]

/-- A grid whose first two cells are identical *empty* strings; the
duplicate-content rejection of the source skips falsy cells, and the grid
is accepted through decision rule 3. -/
def emptyDupGrid : Grid :=
  [[some "", some ""], [some "a1", some "b2"], [some "c3", some "d4"]]

/-- A single-cell grid (rejected by the minimal-dimensions criterion). -/
def tinyGrid : Grid :=
  [[some "x"]]

/-- A page whose text contains a formula, which also carries an embedded
image and a valid table (for the priority-dominance witness). -/
def formulaTablePage : PageInput :=
  { text := "a^2 + b^2"
  , images := [Except.ok (Except.ok [RecRegion.other])]
  , p2tAvailable := true
  , tables := some [numericGrid] }

/-- Footnote example: a Cyrillic marker with a matching definition line. -/
def fnPairedText : String := "Иванов3\n3 Пояснение к тексту"

/-- Footnote example: the same marker with no definition line. -/
def fnUnpairedText : String := "Иванов3"

/-- A Latin word-character marker with a matching definition line: the
spec-side predicate accepts it, the source (Cyrillic-only) does not. -/
def fnLatinText : String := "Smith3\n3 Пояснение"

/-! ## Helper lemmas -/

/-- The pipeline only ever returns the tiers 1–4. -/
theorem analyzeSinglePage_weight_cases (s : PageStages) :
    (analyzeSinglePage s).1 = 1 ∨ (analyzeSinglePage s).1 = 2 ∨
      (analyzeSinglePage s).1 = 3 ∨ (analyzeSinglePage s).1 = 4 := by
  unfold analyzeSinglePage
  cases s.extractStage with
  | error e => simp
  | ok u => split_ifs <;> simp

/-- The page loop produces one row per page. -/
theorem analyzeDocFrom_length (ps : List PageStages) :
    ∀ k : Nat, (analyzeDocFrom k ps).length = ps.length := by
  induction ps with
  | nil => intro k; rfl
  | cons p rest ih => intro k; simp [analyzeDocFrom, ih]

/-- The `i`-th row of the page loop is the row built for the `i`-th page. -/
theorem analyzeDocFrom_get (ps : List PageStages) :
    ∀ (k i : Nat) (h : i < (analyzeDocFrom k ps).length) (h2 : i < ps.length),
      (analyzeDocFrom k ps).get ⟨i, h⟩ = mkRow (k + i) (ps.get ⟨i, h2⟩) := by
  induction ps with
  | nil => intro k i h h2; exact absurd h2 (Nat.not_lt_zero i)
  | cons p rest ih =>
      intro k i h h2
      cases i with
      | zero => simp [analyzeDocFrom]
      | succ j =>
          have hj : j < (analyzeDocFrom (k + 1) rest).length := by
            simpa [analyzeDocFrom] using h
          have hj2 : j < rest.length := Nat.lt_of_succ_lt_succ h2
          have := ih (k + 1) j hj hj2
          simpa [analyzeDocFrom, Nat.add_assoc, Nat.add_comm 1 j] using this

/-- Every row of the page loop is a `mkRow`. -/
theorem mem_analyzeDocFrom (r : Row) (ps : List PageStages) :
    ∀ k : Nat, r ∈ analyzeDocFrom k ps →
      ∃ (i : Nat) (s : PageStages), r = mkRow i s := by
  induction ps with
  | nil => intro k h; cases h
  | cons p rest ih =>
      intro k h
      rcases List.mem_cons.mp h with h1 | h2
      · exact ⟨k, p, h1⟩
      · exact ih (k + 1) h2

/-- The pricing lookup succeeds on every tier the pipeline can produce. -/
theorem pricing_lookup_of_tier (w : Nat)
    (h : w = 1 ∨ w = 2 ∨ w = 3 ∨ w = 4) :
    pricingTable.lookup w = some (priceOf w) := by
  rcases h with h | h | h | h <;> subst h <;> decide

/-- The image loop is the boolean "some image matches". -/
theorem scanImages_eq_any (imgs : List ImgOutcome) :
    scanImages imgs = imgs.any imageMatch := by
  induction imgs with
  | nil => rfl
  | cons img rest ih =>
      cases img with
      | error e => simpa [scanImages, imageMatch] using ih
      | ok inner =>
          cases inner with
          | error e => simpa [scanImages, imageMatch] using ih
          | ok regions =>
              by_cases h : regions.any regionMatch = true <;>
                simp [scanImages, imageMatch, h, ih]

/-- A filtered list is non-empty iff some member passes the filter. -/
theorem filter_not_isEmpty_iff (l : List String) (p : String → Bool) :
    (!(l.filter p).isEmpty) = true ↔ ∃ x ∈ l, p x = true := by
  induction l with
  | nil => simp
  | cons a t ih =>
      by_cases h : p a = true <;> simp [List.filter, h, ih]

/-! ## Claims -/

/-- **C9**: the Formula Text Detector accepts `u(x,t) = 0` (function-call
token) and `E=mc^2` (caret exponent), and rejects the product code
`ABC-123 каталог`, which triggers no formula sub-pattern. -/
theorem c9_formula_text_examples :
    hasFormulas "u(x,t) = 0" = true ∧ hasFormulas "E=mc^2" = true ∧
      hasFormulas "ABC-123 каталог" = false :=
  ⟨by decide, by decide, by decide⟩

/-- **C10**: every number the footnote detector adds to the reference set has
at most 2 digits; the per-match filter is equivalent to the bare length
test, so the calendar-year test on 4-digit tokens can never decide an
exclusion. -/
theorem c10_ref_marker_length :
    (∀ s : String, refFilter s = decide (s.length ≤ 2)) ∧
    (∀ (text : String) (n : String), n ∈ refNums text → n.length ≤ 2) := by
  have hfilter : ∀ s : String, refFilter s = decide (s.length ≤ 2) := by
    intro s
    unfold refFilter
    by_cases hl : s.length ≤ 2
    · have h4 : ¬(s.length = 4) := by omega
      simp [hl, h4]
    · simp [hl]
  refine ⟨hfilter, ?_⟩
  intro text n hn
  have hmem := List.mem_filter.mp hn
  have := hmem.2
  rw [hfilter n] at this
  exact of_decide_eq_true this

/-- Witness for `c10_ref_marker_length` at the marker text `Иванов3`. -/
theorem c10_ref_marker_length_witness :
    ("3" : String) ∈ refNums "Иванов3" ∧ ("3" : String).length ≤ 2 :=
  ⟨by decide, c10_ref_marker_length.2 "Иванов3" "3" (by decide)⟩

/-- **C6 (counterexample)**: the claim's "word-character run" reading accepts
the Latin marker `Smith3` paired with the definition line `3 Пояснение`,
but the source's reference patterns are Cyrillic-only and reject it. -/
theorem c6_footnote_wordchar_counterexample :
    specHasFootnotes fnLatinText = true ∧ hasFootnotes fnLatinText = false :=
  ⟨by decide, by decide⟩

/-- **C6 (amended)**: with "Cyrillic-letter run" in place of "word-character
run" (and the definition letter Cyrillic), the detector classifies a page
as footnoted iff some number occurs both as an in-body reference marker and
as a line-initial definition; `Иванов3` with the definition line pairs,
`Иванов3` alone does not. -/
theorem c6_footnote_pairing_amended :
    (∀ text : String, hasFootnotes text = true ↔
        ∃ n, n ∈ refNums text ∧ n ∈ defNums text) ∧
    hasFootnotes fnPairedText = true ∧ hasFootnotes fnUnpairedText = false := by
  refine ⟨?_, by decide, by decide⟩
  intro text
  show (!((refNums text).filter
      (fun n => (defNums text).contains n)).isEmpty) = true ↔ _
  rw [filter_not_isEmpty_iff]
  constructor
  · rintro ⟨n, hn, hc⟩
    exact ⟨n, hn, by simpa using hc⟩
  · rintro ⟨n, hn, hd⟩
    exact ⟨n, hn, by simpa using hd⟩

/-- **C7**: the Formula Image Detector never raises — an unavailable
recognizer yields `false` for every page, a failed decode or a failed
recognizer call skips only that image, a matching image returns `true`
immediately, and otherwise `false` is returned only after every image has
been checked. -/
theorem c7_image_detector_resilience :
    (∀ imgs : List ImgOutcome, imageHasFormulas false imgs = false) ∧
    (∀ rest : List ImgOutcome,
        scanImages (Except.error () :: rest) = scanImages rest) ∧
    (∀ rest : List ImgOutcome,
        scanImages (Except.ok (Except.error ()) :: rest) = scanImages rest) ∧
    (∀ (img : ImgOutcome) (rest : List ImgOutcome), imageMatch img = true →
        imageHasFormulas true (img :: rest) = true) ∧
    (∀ imgs : List ImgOutcome, imageHasFormulas true imgs = imgs.any imageMatch) := by
  refine ⟨fun imgs => rfl, fun rest => rfl, fun rest => rfl, ?_, ?_⟩
  · intro img rest h
    simp [imageHasFormulas, scanImages_eq_any, List.any_cons, h]
  · intro imgs
    simp [imageHasFormulas, scanImages_eq_any]

/-- Witness for `c7_image_detector_resilience`: a failing image followed by a
`formula` region. -/
theorem c7_image_detector_witness :
    imageMatch (Except.ok (Except.ok [RecRegion.formula])) = true ∧
    imageHasFormulas true
      [Except.ok (Except.ok [RecRegion.formula]), Except.error ()] = true :=
  ⟨by decide,
   c7_image_detector_resilience.2.2.2.1 _ [Except.error ()] (by decide)⟩

/-- **C8**: per-page cost is the pricing-table rate for the page's tier
(4:34, 3:25, 2:21, 1:9); a document's total is the sum of its pages' costs;
a batch's grand total is the sum of its documents' totals and equals the
sum over all pages across all documents; totals are invariant under
reordering; and tiers `[4,3,1]` total 68. -/
theorem c8_pricing_aggregation :
    (priceOf 4 = 34 ∧ priceOf 3 = 25 ∧ priceOf 2 = 21 ∧ priceOf 1 = 9) ∧
    (∀ (pages : List PageStages) (r : Row), r ∈ analyzeDoc pages →
        pricingTable.lookup r.weight = some r.cost) ∧
    (∀ docs : List (List Row),
        batchTotal docs = ((docs.flatten).map Row.cost).sum) ∧
    (∀ l1 l2 : List Row, l1.Perm l2 → docTotal l1 = docTotal l2) ∧
    ((([4, 3, 1] : List Nat).map priceOf).sum = 68) := by
  refine ⟨⟨rfl, rfl, rfl, rfl⟩, ?_, ?_, ?_, by decide⟩
  · intro pages r hr
    rcases mem_analyzeDocFrom r pages 0 hr with ⟨i, s, rfl⟩
    have hw := analyzeSinglePage_weight_cases s
    simpa [mkRow] using pricing_lookup_of_tier (analyzeSinglePage s).1 hw
  · intro docs
    induction docs with
    | nil => rfl
    | cons d rest ih =>
        simp [batchTotal, docTotal, List.flatten, ih, List.map_append,
          List.sum_append] at *
        omega
  · intro l1 l2 h
    exact List.Perm.sum_eq (h.map Row.cost)

/-- Witness for `c8_pricing_aggregation`: a concrete document row and a
concrete two-row swap. -/
theorem c8_pricing_aggregation_witness :
    ({ page := 1, weight := 1, cost := 9, reason := "Простой текст" } : Row) ∈
        analyzeDoc [plainPage] ∧
    pricingTable.lookup (1 : Nat) = some 9 ∧
    docTotal [{ page := 1, weight := 4, cost := 34, reason := "a" },
              { page := 2, weight := 1, cost := 9, reason := "b" }] =
      docTotal [{ page := 2, weight := 1, cost := 9, reason := "b" },
                { page := 1, weight := 4, cost := 34, reason := "a" }] :=
  ⟨by decide,
   c8_pricing_aggregation.2.1 [plainPage]
     { page := 1, weight := 1, cost := 9, reason := "Простой текст" } (by decide),
   c8_pricing_aggregation.2.2.2.1 _ _ (List.Perm.swap _ _ _)⟩

/-- **C5 (counterexample)**: a grid whose first two cells are identical
(empty) strings is nevertheless classified as a valid table — the source's
duplicate-content rejection skips falsy cells, so the claim's unconditional
"identical first cells are never valid" fails. -/
theorem c5_rejection_counterexample :
    (emptyDupGrid.headD []).getD 0 none = (emptyDupGrid.headD []).getD 1 none ∧
    isValidTable emptyDupGrid = true :=
  ⟨by decide, by decide⟩

/-- **C5 (amended)**: with the duplicate-content condition restricted to the
case where both of the first row's first two cells are non-empty (the
source's truthiness guard), every grid satisfying a rejection condition is
classified invalid; in particular the all-empty 2×2 grid and the
`Note`/`Note` grid are never valid tables. -/
theorem c5_rejection_amended :
    (∀ g : Grid, rejected g = true → isValidTable g = false) ∧
    isValidTable emptyCellGrid = false ∧ isValidTable noteGrid = false := by
  refine ⟨?_, by decide, by decide⟩
  intro g h
  rw [show rejected g = (crit1 g || crit2 g || crit3 g || crit4 g || crit8 g)
      from rfl] at h
  unfold isValidTable
  cases h1 : crit1 g <;> cases h2 : crit2 g <;> cases h3 : crit3 g <;>
    cases h4 : crit4 g <;> cases h8 : crit8 g <;> simp_all

/-- Witness for `c5_rejection_amended` at a single-cell grid. -/
theorem c5_rejection_witness :
    rejected tinyGrid = true ∧ isValidTable tinyGrid = false :=
  ⟨by decide, c5_rejection_amended.1 tinyGrid (by decide)⟩

/-- **C3 (counterexample)**: when every detector stage raises, the page
resolves to tier 1 but with the ordinary plain-text reason — identical to
an ordinary plain-text page's reason, not a distinguishing
analysis-failure reason. -/
theorem c3_failure_reason_counterexample :
    analyzeSinglePage allErrPage = (1, "Простой текст") ∧
    (analyzeSinglePage allErrPage).2 = (analyzeSinglePage plainPage).2 :=
  ⟨by decide, by decide⟩

/-- **C3 (amended)**: if every detector stage raises, the page still resolves
to tier 1 and no exception propagates, but the justification is the
ordinary plain-text reason (the analysis-failure reason of the page loop is
reserved for the case where the page classification call itself raises,
which cannot happen for stage-level failures). -/
theorem c3_total_stage_failure_amended (s : PageStages)
    (h1 : s.textStage = Except.error ())
    (h2 : s.imageFormulaStage = Except.error ())
    (h3 : s.imagesPresentStage = Except.error ())
    (h4 : s.tableStage = some (Except.error ()))
    (h5 : s.specialStage = Except.error ())
    (h6 : s.footnoteStage = Except.error ()) :
    analyzeSinglePage s = (1, "Простой текст") := by
  unfold analyzeSinglePage
  cases he : s.extractStage <;>
    simp [h1, h2, h3, h4, h5, h6, stageHit, tableHit]

/-- Witness for `c3_total_stage_failure_amended` at the all-failing page. -/
theorem c3_total_stage_failure_witness :
    analyzeSinglePage allErrPage = (1, "Простой текст") :=
  c3_total_stage_failure_amended allErrPage rfl rfl rfl rfl rfl rfl

/-- **C2**: every document analysis yields exactly one classification row per
page — the row list has one entry per page, the `i`-th row belongs to page
`i+1`, and its tier is in `{1,2,3,4}` — including pages whose detector
stages raise. -/
theorem c2_exactly_one_result (pages : List PageStages) :
    (analyzeDoc pages).length = pages.length ∧
    ∀ (i : Nat) (h : i < (analyzeDoc pages).length),
      ((analyzeDoc pages).get ⟨i, h⟩).page = i + 1 ∧
      (((analyzeDoc pages).get ⟨i, h⟩).weight = 1 ∨
       ((analyzeDoc pages).get ⟨i, h⟩).weight = 2 ∨
       ((analyzeDoc pages).get ⟨i, h⟩).weight = 3 ∨
       ((analyzeDoc pages).get ⟨i, h⟩).weight = 4) := by
  have hl := analyzeDocFrom_length pages 0
  refine ⟨hl, ?_⟩
  intro i h
  have h2 : i < pages.length := hl ▸ h
  have hrow : (analyzeDoc pages).get ⟨i, h⟩ = mkRow (0 + i) (pages.get ⟨i, h2⟩) :=
    analyzeDocFrom_get pages 0 i h h2
  rw [hrow]
  refine ⟨by simp [mkRow], ?_⟩
  simpa [mkRow] using analyzeSinglePage_weight_cases (pages.get ⟨i, h2⟩)

/-- Witness for `c2_exactly_one_result` on a one-page document whose stages
all raise. -/
theorem c2_exactly_one_result_witness :
    (analyzeDoc [allErrPage]).length = 1 ∧
    ((analyzeDoc [allErrPage]).get ⟨0, by decide⟩).page = 0 + 1 ∧
    (((analyzeDoc [allErrPage]).get ⟨0, by decide⟩).weight = 1 ∨
     ((analyzeDoc [allErrPage]).get ⟨0, by decide⟩).weight = 2 ∨
     ((analyzeDoc [allErrPage]).get ⟨0, by decide⟩).weight = 3 ∨
     ((analyzeDoc [allErrPage]).get ⟨0, by decide⟩).weight = 4) :=
  ⟨(c2_exactly_one_result [allErrPage]).1,
   ((c2_exactly_one_result [allErrPage]).2 0 (by decide)).1,
   ((c2_exactly_one_result [allErrPage]).2 0 (by decide)).2⟩

/-- **C1**: the pipeline evaluates the detectors in the fixed order
formula-text, formula-image, image-presence, table, special-script,
footnote, default, returning at the first success with tiers 4, 4, 3, 3,
2, 2, 1 and the corresponding reasons; in particular, a page whose text
satisfies the Formula Text Detector classifies as tier 4 with the
formula-text reason, never tier 3, whatever its images and tables hold. -/
theorem c1_priority_order :
    (∀ s : PageStages, s.extractStage = Except.ok () →
        analyzeSinglePage s =
          (((stageList s).find? (fun p => stageHit p.1)).map Prod.snd).getD
            (1, "Простой текст")) ∧
    (∀ s : PageStages, s.extractStage = Except.ok () →
        stageHit s.textStage = true →
        analyzeSinglePage s = (4, "Формула (текст)")) ∧
    (∀ inp : PageInput, hasFormulas inp.text = true →
        analyzeSinglePage (stagesOfInput inp) = (4, "Формула (текст)")) := by
  have dom : ∀ s : PageStages, s.extractStage = Except.ok () →
      stageHit s.textStage = true →
      analyzeSinglePage s = (4, "Формула (текст)") := by
    intro s he h
    unfold analyzeSinglePage
    rw [he]
    simp [h]
  refine ⟨?_, dom, ?_⟩
  · intro s he
    have ht : stageHit (tableExc s.tableStage) = tableHit s.tableStage := by
      cases s.tableStage <;> rfl
    unfold analyzeSinglePage stageList
    rw [he]
    cases h1 : stageHit s.textStage <;>
      cases h2 : stageHit s.imageFormulaStage <;>
        cases h3 : stageHit s.imagesPresentStage <;>
          cases h4 : tableHit s.tableStage <;>
            cases h5 : stageHit s.specialStage <;>
              cases h6 : stageHit s.footnoteStage <;>
                simp [List.find?, h1, h2, h3, h4, h5, h6, ht]
  · intro inp h
    exact dom (stagesOfInput inp) rfl (by simp [stagesOfInput, stageHit, h])

/-- Witness for `c1_priority_order`: a page holding a formula in its text
together with an embedded image and a valid table classifies as tier 4 with
the formula-text reason, and the plain page follows the first-success
cascade. -/
theorem c1_priority_order_witness :
    hasFormulas formulaTablePage.text = true ∧
    analyzeSinglePage (stagesOfInput formulaTablePage) = (4, "Формула (текст)") ∧
    analyzeSinglePage plainPage =
      (((stageList plainPage).find? (fun p => stageHit p.1)).map Prod.snd).getD
        (1, "Простой текст") :=
  ⟨by decide,
   c1_priority_order.2.2 formulaTablePage (by decide),
   c1_priority_order.1 plainPage rfl⟩

/-- **C4**: for every grid that passes the rejection criteria, the
table-validity decision follows the source's rule order: (1) at least 2
table indicators and no text indicator — valid; (2) otherwise no table
indicator and some text indicator — invalid; (3) otherwise numeric cells
present and no empty column — valid; (4) otherwise the term/description
shape (2 columns, ≥ 2 rows, no empty column, ≥ 1 indicator, second-column
average length more than double the first's, first-column average under
100) — valid; (5) otherwise invalid. -/
theorem c4_decision_order (g : Grid) (h : rejected g = false) :
    isValidTable g =
      (if 2 ≤ tableIndicators g ∧ textIndicators g = 0 then true
       else if tableIndicators g = 0 ∧ 0 < textIndicators g then false
       else if 0 < numericCells g ∧ emptyColumns g = 0 then true
       else if rule4 g = true then true
       else false) := by
  rw [show rejected g = (crit1 g || crit2 g || crit3 g || crit4 g || crit8 g)
      from rfl] at h
  simp only [Bool.or_eq_false_iff] at h
  obtain ⟨⟨⟨⟨h1, h2⟩, h3⟩, h4⟩, h8⟩ := h
  have h0 : g.isEmpty = false := by
    cases g with
    | nil => exact absurd h1 (by decide)
    | cons r t => rfl
  unfold isValidTable
  rw [h0, h1, h2, h3, h4, h8]
  simp

/-- Witness for `c4_decision_order` at a non-rejected numeric grid. -/
theorem c4_decision_order_witness :
    rejected numericGrid = false ∧ isValidTable numericGrid = true := by
  refine ⟨by decide, ?_⟩
  rw [c4_decision_order numericGrid (by decide)]
  decide
